import Mathlib

/-!
Verification of the payment-processing pipeline (api-gateway, payment-orchestrator,
fraud-service, ledger-service) against its design document.

Each service's core logic is shallowly embedded as executable Lean definitions that
mirror the Go source line by line: SQL tables become lists or lookup functions,
Redis keys become a function from key to value, and a Kafka/NATS delivery becomes an
explicit function application.  Monetary values (Postgres `DECIMAL(...,2)`, Go
`shopspring/decimal` and `float64`) are modelled exactly as integer numbers of cents
(`Money := Int`): every concrete amount in the repository has two fractional digits,
so `d` dollars is written as the integer `100 * d` and comparisons and sums carry
over verbatim.
-/

/-- Monetary amount in cents: `DECIMAL(...,2)` values scaled by 100. -/
abbrev Money : Type := Int

/-- Pointwise update of a string-keyed lookup function. -/
def setAt {β : Type} (f : String → β) (k : String) (v : β) : String → β :=
  fun x => if x = k then v else f x


namespace Ledger

/-- The `payment.state.changed` record consumed by the ledger service
(`PaymentStateChangedEvent` in `ledger-service/cmd/main.go`).  The `timestamp` and
`previous_state` fields are never read by the consumer and are omitted. -/
structure PaymentStateChangedEvent where
  payment_id : String
  state : String
  deriving DecidableEq, Repr

/-- A row of the `ledger_entries` table (`LedgerEntry` in the source).  The Go field
`Type` maps to `entryType` (`type` is reserved in Lean); `created_at` is not used by
any computation and is omitted. -/
structure Entry where
  entryId : Nat
  account_id : String
  payment_id : String
  entryType : String
  amount : Money
  balance : Money
  idempotency_key : String
  deriving DecidableEq, Repr

/-- The ledger service's database: the `accounts` table (id and balance; the `type`
column is never read back) and the `ledger_entries` table, plus the `BIGSERIAL`
counter assigning entry ids. -/
structure LedgerDB where
  accounts : List (String × Money)
  entries : List Entry
  nextId : Nat
  deriving DecidableEq, Repr

/-- `SELECT balance FROM accounts WHERE id = $1`. -/
def getBalance (db : LedgerDB) (accountId : String) : Option Money :=
  (db.accounts.find? (fun p => p.1 == accountId)).map Prod.snd

/-- `UPDATE accounts SET balance = $1 WHERE id = $2`. -/
def setBalance (db : LedgerDB) (accountId : String) (b : Money) : LedgerDB :=
  { db with accounts := db.accounts.map (fun p => if p.1 == accountId then (p.1, b) else p) }

/-- `INSERT INTO accounts (id, type, balance) VALUES ($1, 'merchant', 0) ON CONFLICT
(id) DO NOTHING` — auto-provisioning of a missing account. -/
def ensureAccount (db : LedgerDB) (accountId : String) : LedgerDB :=
  if (db.accounts.find? (fun p => p.1 == accountId)).isSome then db
  else { db with accounts := db.accounts ++ [(accountId, 0)] }

/-- Whether some ledger entry already carries this idempotency key (the `UNIQUE`
constraint consulted by `ON CONFLICT (idempotency_key) DO NOTHING`). -/
def hasKey (db : LedgerDB) (k : String) : Bool :=
  db.entries.any (fun e => e.idempotency_key == k)

/-- `recordEntry` from `ledger-service/cmd/main.go`: read the account balance (error
if the account row is missing), compute the new balance (credit adds, debit
subtracts), insert the ledger entry with `ON CONFLICT (idempotency_key) DO NOTHING`,
and then unconditionally `UPDATE` the account balance.  Note the balance update is
NOT guarded by whether the insert actually inserted a row. -/
def recordEntry (db : LedgerDB) (accountId paymentId entryType : String)
    (amount : Money) (idempotencyKey : String) : Option LedgerDB :=
  match getBalance db accountId with
  | none => none
  | some balance =>
    let newBalance := if entryType == "credit" then balance + amount else balance - amount
    let db1 :=
      if hasKey db idempotencyKey then db
      else { db with
              entries := db.entries ++
                [⟨db.nextId, accountId, paymentId, entryType, amount, newBalance, idempotencyKey⟩],
              nextId := db.nextId + 1 }
    some (setBalance db1 accountId newBalance)

/-- The transactional body of `recordPaymentSuccess`: credit the merchant account
with `amount − platformFee` and the platform account with `platformFee`, using the
hardcoded mock `amount := 100.00` and `platformFee := 2.00` of the source.  `none`
means the transaction aborts (rolls back). -/
def postingGroup (db : LedgerDB) (event : PaymentStateChangedEvent) : Option LedgerDB :=
  let merchantAccount := "merchant-" ++ event.payment_id.take 8
  let amount : Money := 100 * 100
  let platformFee : Money := 2 * 100
  let merchantAmount := amount - platformFee
  let idempotencyKey := event.payment_id ++ "-" ++ event.state
  match recordEntry db merchantAccount event.payment_id "credit" merchantAmount
      (idempotencyKey ++ "-merchant") with
  | none => none
  | some db1 =>
      recordEntry db1 "platform-001" event.payment_id "credit" platformFee
        (idempotencyKey ++ "-platform")

/-- `recordPaymentSuccess`: ensure the merchant account exists (a plain `db.Exec`,
outside the transaction), then run the posting group in a transaction; on error the
transaction rolls back but the auto-provisioned account persists, and the consumer
merely logs the error. -/
def recordPaymentSuccess (db : LedgerDB) (event : PaymentStateChangedEvent) : LedgerDB :=
  let db0 := ensureAccount db ("merchant-" ++ event.payment_id.take 8)
  match postingGroup db0 event with
  | some db1 => db1
  | none => db0

/-- One iteration of `consumePaymentStateChanges`: only messages with
`state == "SUCCEEDED"` are processed; everything else is skipped. -/
def deliver (db : LedgerDB) (event : PaymentStateChangedEvent) : LedgerDB :=
  if event.state == "SUCCEEDED" then recordPaymentSuccess db event else db

/-- Replaying a list of `payment.state.changed` messages in order. -/
def deliverAll (db : LedgerDB) (events : List PaymentStateChangedEvent) : LedgerDB :=
  events.foldl deliver db

/-- The bootstrap state produced by `initDB`: empty tables except the pre-seeded
`platform-001` account with zero balance. -/
def ledgerInit : LedgerDB :=
  { accounts := [("platform-001", 0)], entries := [], nextId := 1 }

/-- Sum of the amounts of the credit entries of one payment. -/
def creditSum (db : LedgerDB) (paymentId : String) : Money :=
  (db.entries.filter (fun e => e.payment_id == paymentId && e.entryType == "credit")).foldl
    (fun acc e => acc + e.amount) 0

/-- Sum of the amounts of the debit entries of one payment. -/
def debitSum (db : LedgerDB) (paymentId : String) : Money :=
  (db.entries.filter (fun e => e.payment_id == paymentId && e.entryType == "debit")).foldl
    (fun acc e => acc + e.amount) 0

/-- Sum of the amounts of the credit entries of one account. -/
def accountCreditSum (db : LedgerDB) (accountId : String) : Money :=
  (db.entries.filter (fun e => e.account_id == accountId && e.entryType == "credit")).foldl
    (fun acc e => acc + e.amount) 0

/-- Sum of the amounts of the debit entries of one account. -/
def accountDebitSum (db : LedgerDB) (accountId : String) : Money :=
  (db.entries.filter (fun e => e.account_id == accountId && e.entryType == "debit")).foldl
    (fun acc e => acc + e.amount) 0

/-- A sample `SUCCEEDED` event for a payment whose id is at least 8 characters long
(the source slices `event.PaymentID[:8]`). -/
def sampleEvent : PaymentStateChangedEvent :=
  { payment_id := "p-123456", state := "SUCCEEDED" }

/-- The ledger database after a single delivery of `sampleEvent`. -/
def deliveredOnce : LedgerDB := deliver ledgerInit sampleEvent

/-- The ledger database after the same `SUCCEEDED` message is delivered twice
(an at-least-once redelivery of the identical record). -/
def deliveredTwice : LedgerDB := deliver deliveredOnce sampleEvent

end Ledger

namespace Fraud

/-- The request payload of the `fraud.check` Bus subject (`FraudCheckRequest` in
`fraud-service/cmd/main.go`). -/
structure FraudCheckRequest where
  payment_id : String
  amount : Money
  customer_id : String
  deriving DecidableEq, Repr

/-- The reply payload (`FraudCheckResponse` in the source). -/
structure FraudCheckResponse where
  decision : String
  reason : String
  deriving DecidableEq, Repr

/-- The Redis keyspace seen by the fraud service: the integer value of each
`fraud:velocity:{customer_id}` counter (0 when the key is absent, matching Redis
`INCR` semantics on a missing key) and the TTL in seconds attached to it, if any. -/
structure KVStore where
  velocity : String → Nat
  ttlSeconds : String → Option Nat

/-- `checkFraud` from `fraud-service/cmd/main.go`, with the Redis counter modelled
as always reachable (the `err == nil` branch of `Incr`): rule 1 denies amounts over
$10,000 before touching the counter; otherwise the counter is incremented, given a
one-hour TTL when it becomes 1, and a value above 5 denies; rule 3 sends amounts
over $5,000 to manual review; otherwise approve. -/
def checkFraud (kv : KVStore) (req : FraudCheckRequest) : FraudCheckResponse × KVStore :=
  if req.amount > 10000 * 100 then
    ({ decision := "deny", reason := "Amount exceeds $10,000 limit" }, kv)
  else
    let velocityKey := "fraud:velocity:" ++ req.customer_id
    let count := kv.velocity velocityKey + 1
    let kv1 : KVStore :=
      { velocity := setAt kv.velocity velocityKey count,
        ttlSeconds :=
          if count = 1 then setAt kv.ttlSeconds velocityKey (some 3600) else kv.ttlSeconds }
    if count > 5 then
      ({ decision := "deny",
         reason := "Too many payments in the last hour (velocity check failed)" }, kv1)
    else if req.amount > 5000 * 100 then
      ({ decision := "manual_review",
         reason := "High-value transaction requires manual review" }, kv1)
    else
      ({ decision := "approve", reason := "All fraud checks passed" }, kv1)

/-- The decision procedure exactly as the specification words it, step by step:
(1) `amount > 10000` denies; (2) increment the customer's velocity counter, set a
1-hour TTL when it becomes 1, and deny when its value exceeds 5; (3) `amount > 5000`
goes to manual review; (4) otherwise approve.  Returns the decision string together
with the key-value store after the evaluation. -/
def specDecision (kv : KVStore) (req : FraudCheckRequest) : String × KVStore :=
  if req.amount > 10000 * 100 then ("deny", kv)
  else
    let key := "fraud:velocity:" ++ req.customer_id
    let newValue := kv.velocity key + 1
    let kv1 : KVStore :=
      { velocity := setAt kv.velocity key newValue,
        ttlSeconds :=
          if newValue = 1 then setAt kv.ttlSeconds key (some 3600) else kv.ttlSeconds }
    if newValue > 5 then ("deny", kv1)
    else if req.amount > 5000 * 100 then ("manual_review", kv1)
    else ("approve", kv1)

end Fraud

namespace Gateway

/-- A row of the api-gateway `payments` table (`Payment` in
`api-gateway/cmd/main.go`); `created_at` is not used by any claim and is omitted. -/
structure Payment where
  id : String
  amount : Money
  currency : String
  customer_id : String
  merchant_id : String
  status : String
  idempotency_key : String
  deriving DecidableEq, Repr

/-- The validated body of `POST /payments` (`CreatePaymentRequest` in the source;
all four fields carry gin's `binding:"required"`). -/
structure CreatePaymentRequest where
  amount : Money
  currency : String
  customer_id : String
  merchant_id : String
  deriving DecidableEq, Repr

/-- The api-gateway's externally visible state: the `payments` table and the Redis
cache of `idempotency:{key}` entries (the 24-hour expiry is irrelevant within one
scenario and is not modelled). -/
structure GatewayDB where
  payments : List Payment
  kv : String → Option Payment

/-- An HTTP response as far as the claims observe it: status code plus the payment
body on success paths (error bodies carry no payment). -/
structure HttpResponse where
  status : Nat
  payment : Option Payment
  deriving DecidableEq, Repr

/-- `SELECT ... FROM payments WHERE idempotency_key = $1`. -/
def findByKey (db : GatewayDB) (key : String) : Option Payment :=
  db.payments.find? (fun p => p.idempotency_key == key)

/-- The number of stored payment rows carrying this idempotency key. -/
def rowsWithKey (db : GatewayDB) (key : String) : Nat :=
  (db.payments.filter (fun p => p.idempotency_key == key)).length

/-- The `POST /payments` pipeline: `idempotencyMiddleware` followed by
`createPayment` (`api-gateway/cmd/main.go`).  Inputs beyond the state: the
`Idempotency-Key` header (`none` when absent), the request body (`none` when JSON
binding fails validation), the freshly generated UUID for a new payment, and
whether the Kafka publish of `payment.created` succeeds.  The middleware returns
400 without a key, replays a cached or stored payment with 200, and otherwise falls
through to the handler, which inserts the row, caches it in Redis, publishes the
event — logging, but otherwise ignoring, a publish failure — and returns 201. -/
def handlePost (db : GatewayDB) (key : Option String) (body : Option CreatePaymentRequest)
    (newId : String) (publishOk : Bool) : HttpResponse × GatewayDB :=
  match key with
  | none => ({ status := 400, payment := none }, db)
  | some k =>
    match db.kv ("idempotency:" ++ k) with
    | some cached => ({ status := 200, payment := some cached }, db)
    | none =>
      match findByKey db k with
      | some stored => ({ status := 200, payment := some stored }, db)
      | none =>
        match body with
        | none => ({ status := 400, payment := none }, db)
        | some req =>
          let payment : Payment :=
            { id := newId, amount := req.amount, currency := req.currency,
              customer_id := req.customer_id, merchant_id := req.merchant_id,
              status := "NEW", idempotency_key := k }
          let db1 : GatewayDB :=
            { payments := db.payments ++ [payment],
              kv := setAt db.kv ("idempotency:" ++ k) (some payment) }
          -- `publishOk = false` is only logged by the handler; the response is the
          -- same 201 either way.
          (({ status := 201, payment := some payment } : HttpResponse), db1)

/-- The gateway state after `initDB`: no rows, empty cache. -/
def gatewayInit : GatewayDB :=
  { payments := [], kv := fun _ => none }

/-- A sample request body (scenario 1 of the design document: amount 50.00). -/
def sampleReq : CreatePaymentRequest :=
  { amount := 5000, currency := "USD", customer_id := "C1", merchant_id := "M1" }

end Gateway

namespace Orch

/-- The `PaymentState` string constants of `payment-orchestrator` as a closed
enumeration (the Go source only ever stores one of these seven values). -/
inductive PaymentState where
  | NEW
  | AUTH_PENDING
  | AUTHORIZED
  | CAPTURED
  | SUCCEEDED
  | FAILED
  | CANCELED
  deriving DecidableEq, Repr

/-- A row of the `payment_states` table.  The initial insert writes an empty
`previous_state` and a NULL `fraud_decision`, both modelled as `none`; timestamps
are not used by any claim.  `fraud_decision` stays a raw string because the
orchestrator stores whatever string the fraud reply carried. -/
structure StateRow where
  state : PaymentState
  previous_state : Option PaymentState
  fraud_decision : Option String
  deriving DecidableEq, Repr

/-- The orchestrator's database, together with a history field recording, per
payment, every value its `state` column has taken (the "recorded state sequence" of
the design document).  The history is pure instrumentation: no operation reads it. -/
structure OrchDB where
  rows : String → Option StateRow
  hist : String → List PaymentState

/-- The empty `payment_states` table. -/
def orchInit : OrchDB :=
  { rows := fun _ => none, hist := fun _ => [] }

/-- The outcome of the 5-second NATS request to `fraud.check` as seen by
`processPayment`: either a timeout / Bus error, or a reply carrying a raw decision
string. -/
inductive FraudOutcome where
  | timeout
  | reply (decision : String)
  deriving DecidableEq, Repr

/-- `transitionState` from the orchestrator's `main.go`: a compare-and-swap,
`UPDATE payment_states SET state = to, previous_state = from WHERE payment_id = $3
AND state = from`.  Returns the updated database and whether a row was affected
(`rows == 0` makes the Go function return an error).  A successful CAS appends the
new state to the payment's recorded history; the subsequent Kafka emission of
`payment.state.changed` has no effect on this database. -/
def transitionState (db : OrchDB) (paymentID : String)
    (fromState toState : PaymentState) : OrchDB × Bool :=
  match db.rows paymentID with
  | none => (db, false)
  | some row =>
    if row.state = fromState then
      ({ rows := setAt db.rows paymentID
           (some { state := toState, previous_state := some fromState,
                   fraud_decision := row.fraud_decision }),
         hist := setAt db.hist paymentID (db.hist paymentID ++ [toState]) },
       true)
    else (db, false)

/-- The initial `INSERT INTO payment_states ... VALUES ($1, NEW, '') ON CONFLICT
(payment_id) DO NOTHING` of `processPayment`. -/
def insertIfAbsent (db : OrchDB) (paymentID : String) : OrchDB :=
  match db.rows paymentID with
  | some _ => db
  | none =>
    { rows := setAt db.rows paymentID
        (some { state := .NEW, previous_state := none, fraud_decision := none }),
      hist := setAt db.hist paymentID [PaymentState.NEW] }

/-- `UPDATE payment_states SET fraud_decision = $1 WHERE payment_id = $2`
(unguarded by state). -/
def setFraudDecision (db : OrchDB) (paymentID : String) (d : String) : OrchDB :=
  match db.rows paymentID with
  | none => db
  | some row =>
    let row1 : StateRow := { row with fraud_decision := some d }
    { db with rows := setAt db.rows paymentID (some row1) }

/-- `processPayment` from the orchestrator's `main.go`, for one delivery of a
`payment.created` event.  The `payment_lock:{payment_id}` SetNX lock is acquired at
entry and released at exit; under the serial delivery model of a single consumer it
always succeeds and has no further effect, so it is not represented.  The flow:
insert the row if absent; CAS `NEW → AUTH_PENDING`, returning on failure; on fraud
timeout CAS `AUTH_PENDING → FAILED`; on a reply, store the raw decision string and
either run the three CAS transitions to `SUCCEEDED` (decision exactly "approve") or
CAS `AUTH_PENDING → FAILED`. -/
def processPayment (db : OrchDB) (paymentID : String) (outcome : FraudOutcome) : OrchDB :=
  let db1 := insertIfAbsent db paymentID
  match transitionState db1 paymentID .NEW .AUTH_PENDING with
  | (db2, false) => db2
  | (db2, true) =>
    match outcome with
    | .timeout => (transitionState db2 paymentID .AUTH_PENDING .FAILED).1
    | .reply d =>
      let db3 := setFraudDecision db2 paymentID d
      if d == "approve" then
        let db4 := (transitionState db3 paymentID .AUTH_PENDING .AUTHORIZED).1
        let db5 := (transitionState db4 paymentID .AUTHORIZED .CAPTURED).1
        (transitionState db5 paymentID .CAPTURED .SUCCEEDED).1
      else
        (transitionState db3 paymentID .AUTH_PENDING .FAILED).1

/-- A serial run of the `payment.created` consumer: each element is one delivered
event (payment id) paired with the outcome of its fraud consultation. -/
def runEvents (db : OrchDB) (evs : List (String × FraudOutcome)) : OrchDB :=
  evs.foldl (fun acc ev => processPayment acc ev.1 ev.2) db

/-- The edges of the legal transition graph of the design document:
`NEW → AUTH_PENDING → AUTHORIZED → CAPTURED → SUCCEEDED` with
`AUTH_PENDING → FAILED`. -/
def legalEdge : PaymentState → PaymentState → Bool
  | .NEW, .AUTH_PENDING => true
  | .AUTH_PENDING, .AUTHORIZED => true
  | .AUTH_PENDING, .FAILED => true
  | .AUTHORIZED, .CAPTURED => true
  | .CAPTURED, .SUCCEEDED => true
  | _, _ => false

/-- Terminal states: `SUCCEEDED`, `FAILED`, `CANCELED`. -/
def isTerminal : PaymentState → Bool
  | .SUCCEEDED => true
  | .FAILED => true
  | .CANCELED => true
  | _ => false

/-- Each consecutive step from the given state onwards follows a legal edge. -/
def chainLegal : PaymentState → List PaymentState → Bool
  | _, [] => true
  | s, t :: rest => legalEdge s t && chainLegal t rest

/-- A recorded state sequence is an initial segment of a legal path: it starts at
`NEW` and every consecutive pair is an edge of the legal graph. -/
def legalHist : List PaymentState → Bool
  | [] => false
  | s :: rest => (s == PaymentState.NEW) && chainLegal s rest

/-- A row reaches `SUCCEEDED` only with the stored fraud decision "approve". -/
def rowOk (row : StateRow) : Bool :=
  row.state != PaymentState.SUCCEEDED || row.fraud_decision == some "approve"

/-- The last element of a nonempty path starting at the given state. -/
def lastState : PaymentState → List PaymentState → PaymentState
  | s, [] => s
  | _, t :: rest => lastState t rest

/-- The last recorded state of a history, `none` for the empty history. -/
def histLast : List PaymentState → Option PaymentState
  | [] => none
  | s :: rest => some (lastState s rest)

/-- The per-payment invariant tying a recorded history to the current row: an
absent row has an empty history; a present row has a legal history ending in the
row's current state, and satisfies `rowOk`. -/
def RowInv : List PaymentState → Option StateRow → Prop
  | h, none => h = []
  | h, some row => legalHist h = true ∧ histLast h = some row.state ∧ rowOk row = true

/-- The database-wide invariant. -/
def Inv (db : OrchDB) : Prop := ∀ pid, RowInv (db.hist pid) (db.rows pid)

end Orch

/-- C1: consumer idempotence fails in the code.  Redelivering the identical
`payment.state.changed SUCCEEDED` message leaves the entry set unchanged (the
`ON CONFLICT (idempotency_key) DO NOTHING` insert absorbs the duplicate), but the
unguarded balance `UPDATE` in `recordEntry` is re-applied: the merchant balance
jumps from 98.00 to 196.00, so the ledger is not left unchanged as claimed. -/
theorem ledger_duplicate_delivery_changes_balances :
    Ledger.deliveredTwice.entries = Ledger.deliveredOnce.entries ∧
    Ledger.getBalance Ledger.deliveredOnce "merchant-p-123456" = some 9800 ∧
    Ledger.getBalance Ledger.deliveredTwice "merchant-p-123456" = some 19600 ∧
    Ledger.getBalance Ledger.deliveredTwice "platform-001" = some 400 ∧
    Ledger.deliveredTwice ≠ Ledger.deliveredOnce := by
  decide

/-- C2: the posting group of a `SUCCEEDED` payment is not balanced.
`recordPaymentSuccess` posts two credits (98.00 to the merchant, 2.00 to the
platform) and no debit at all, so for a payment with entries the credit sum is
100.00 while the debit sum is 0.00. -/
theorem ledger_posting_group_unbalanced :
    Ledger.deliveredOnce.entries ≠ [] ∧
    Ledger.creditSum Ledger.deliveredOnce "p-123456" = 10000 ∧
    Ledger.debitSum Ledger.deliveredOnce "p-123456" = 0 ∧
    Ledger.creditSum Ledger.deliveredOnce "p-123456" ≠
      Ledger.debitSum Ledger.deliveredOnce "p-123456" := by
  decide

/-- C4: the posted amounts do not reflect the payment.  The
`payment.state.changed` event consumed by the ledger carries no amount at all, and
`recordPaymentSuccess` hardcodes `amount := 100.00`, so any `SUCCEEDED` payment —
including one of amount 50.00 — is posted as a 98.00 merchant credit and a 2.00
platform credit, not the claimed 48.00. -/
theorem ledger_amount_hardcoded :
    Ledger.deliveredOnce.entries.map (fun e => (e.account_id, e.entryType, e.amount)) =
      [("merchant-p-123456", "credit", 9800), ("platform-001", "credit", 200)] ∧
    (9800 : Money) ≠ 4800 := by
  decide

/-- C7: the account balance invariant fails in the code.  After a duplicate
delivery the merchant balance is 196.00 while its entries sum to 98.00 of credits
and no debits; and `recordEntry` contains no `NegativeBalance` guard — a 10.00
debit against the zero-balance platform account is posted and drives the stored
balance to −10.00. -/
theorem ledger_balance_invariant_violated :
    Ledger.getBalance Ledger.deliveredTwice "merchant-p-123456" = some 19600 ∧
    Ledger.accountCreditSum Ledger.deliveredTwice "merchant-p-123456" -
      Ledger.accountDebitSum Ledger.deliveredTwice "merchant-p-123456" = 9800 ∧
    (19600 : Money) ≠ 9800 ∧
    (Ledger.recordEntry Ledger.ledgerInit "platform-001" "p-123456" "debit" 1000
        "k-debit").map
        (fun db => (Ledger.getBalance db "platform-001", db.entries.length)) =
      some (some (-1000), 1) := by
  decide

/-- Looking up the key just written to the cache. -/
theorem setAt_same {β : Type} (f : String → β) (k : String) (v : β) :
    setAt f k v k = v := by
  simp [setAt]

/-- Writing one key leaves every other key unchanged. -/
theorem setAt_ne {β : Type} (f : String → β) (k : String) (v : β) (x : String)
    (h : x ≠ k) : setAt f k v x = f x := by
  simp [setAt, h]

/-- When no element of the first list matches, `find?` over an append searches the
second list. -/
theorem find?_append_of_none {α : Type} (p : α → Bool) (l1 l2 : List α)
    (h : l1.find? p = none) : (l1 ++ l2).find? p = l2.find? p := by
  induction l1 with
  | nil => simp
  | cons a t ih =>
    rw [List.find?_cons] at h
    cases hp : p a with
    | true => simp [hp] at h
    | false =>
      rw [hp] at h
      simp only [List.cons_append, List.find?_cons, hp]
      exact ih h

/-- When no element matches, the filter is empty. -/
theorem filter_eq_nil_of_find?_none {α : Type} (p : α → Bool) (l : List α)
    (h : l.find? p = none) : l.filter p = [] := by
  induction l with
  | nil => simp
  | cons a t ih =>
    rw [List.find?_cons] at h
    cases hp : p a with
    | true => simp [hp] at h
    | false =>
      rw [hp] at h
      simp only [List.filter_cons, hp]
      exact ih h

/-- C6: the fraud decision function of `checkFraud` agrees, on every request and
every key-value state, with the specification's four ordered, short-circuit rules
as transcribed in `specDecision` — both in the decision returned and in the effect
on the velocity counter and its TTL. -/
theorem checkFraud_matches_spec_rules (kv : Fraud.KVStore) (req : Fraud.FraudCheckRequest) :
    ((Fraud.checkFraud kv req).1.decision, (Fraud.checkFraud kv req).2) =
      Fraud.specDecision kv req := by
  unfold Fraud.checkFraud Fraud.specDecision
  split
  · rfl
  · dsimp only
    split
    · rfl
    · split
      · rfl
      · rfl

/-- C5: ingress idempotent replay.  For a fresh idempotency key (no cache entry,
no stored row), the first `POST /payments` returns 201 and inserts exactly one row
for the key; any repeated call with the same key — whatever fresh UUID or publish
outcome it would have had — returns 200 with the very same payment body and leaves
the gateway state untouched, so the Store keeps exactly one row for the key. -/
theorem createPayment_idempotent_replay
    (db : Gateway.GatewayDB) (k : String) (req : Gateway.CreatePaymentRequest)
    (id1 id2 : String) (pub1 pub2 : Bool)
    (hkv : db.kv ("idempotency:" ++ k) = none)
    (hstore : Gateway.findByKey db k = none) :
    (Gateway.handlePost db (some k) (some req) id1 pub1).1.status = 201 ∧
    Gateway.rowsWithKey (Gateway.handlePost db (some k) (some req) id1 pub1).2 k = 1 ∧
    (Gateway.handlePost (Gateway.handlePost db (some k) (some req) id1 pub1).2
        (some k) (some req) id2 pub2).1.status = 200 ∧
    (Gateway.handlePost (Gateway.handlePost db (some k) (some req) id1 pub1).2
        (some k) (some req) id2 pub2).1.payment =
      (Gateway.handlePost db (some k) (some req) id1 pub1).1.payment ∧
    ((Gateway.handlePost (Gateway.handlePost db (some k) (some req) id1 pub1).2
        (some k) (some req) id2 pub2).1.payment).map Gateway.Payment.id = some id1 ∧
    (Gateway.handlePost (Gateway.handlePost db (some k) (some req) id1 pub1).2
        (some k) (some req) id2 pub2).2 =
      (Gateway.handlePost db (some k) (some req) id1 pub1).2 := by
  have hfilter : db.payments.filter (fun p => p.idempotency_key == k) = [] :=
    filter_eq_nil_of_find?_none _ _ hstore
  refine ⟨?_, ?_, ?_, ?_, ?_, ?_⟩ <;>
    simp [Gateway.handlePost, hkv, hstore, setAt_same, Gateway.rowsWithKey,
      List.filter_append, hfilter]

/-- C5 witness: the replay law evaluated at the happy-path scenario key `K1`. -/
theorem createPayment_idempotent_replay_witness :
    (Gateway.handlePost Gateway.gatewayInit (some "K1") (some Gateway.sampleReq)
        "uuid-1" true).1.status = 201 ∧
    Gateway.rowsWithKey (Gateway.handlePost Gateway.gatewayInit (some "K1")
        (some Gateway.sampleReq) "uuid-1" true).2 "K1" = 1 ∧
    (Gateway.handlePost (Gateway.handlePost Gateway.gatewayInit (some "K1")
        (some Gateway.sampleReq) "uuid-1" true).2
        (some "K1") (some Gateway.sampleReq) "uuid-2" false).1.status = 200 ∧
    (Gateway.handlePost (Gateway.handlePost Gateway.gatewayInit (some "K1")
        (some Gateway.sampleReq) "uuid-1" true).2
        (some "K1") (some Gateway.sampleReq) "uuid-2" false).1.payment =
      (Gateway.handlePost Gateway.gatewayInit (some "K1") (some Gateway.sampleReq)
        "uuid-1" true).1.payment ∧
    ((Gateway.handlePost (Gateway.handlePost Gateway.gatewayInit (some "K1")
        (some Gateway.sampleReq) "uuid-1" true).2
        (some "K1") (some Gateway.sampleReq) "uuid-2" false).1.payment).map
      Gateway.Payment.id = some "uuid-1" ∧
    (Gateway.handlePost (Gateway.handlePost Gateway.gatewayInit (some "K1")
        (some Gateway.sampleReq) "uuid-1" true).2
        (some "K1") (some Gateway.sampleReq) "uuid-2" false).2 =
      (Gateway.handlePost Gateway.gatewayInit (some "K1") (some Gateway.sampleReq)
        "uuid-1" true).2 :=
  createPayment_idempotent_replay Gateway.gatewayInit "K1" Gateway.sampleReq
    "uuid-1" "uuid-2" true false rfl rfl

/-- C9 counterexample: when the Store insert succeeds but the Kafka publish of
`payment.created` fails, the handler logs the error and still answers 201 — not a
5xx as claimed — while the Store row does exist. -/
theorem publish_failure_counterexample :
    (Gateway.handlePost Gateway.gatewayInit (some "K1") (some Gateway.sampleReq)
        "uuid-1" false).1.status = 201 ∧
    ¬ 500 ≤ (Gateway.handlePost Gateway.gatewayInit (some "K1")
        (some Gateway.sampleReq) "uuid-1" false).1.status ∧
    Gateway.findByKey (Gateway.handlePost Gateway.gatewayInit (some "K1")
        (some Gateway.sampleReq) "uuid-1" false).2 "K1" ≠ none := by
  refine ⟨rfl, by decide, ?_⟩
  simp [Gateway.handlePost, Gateway.findByKey, Gateway.gatewayInit]

/-- C9 amended: if the Store insert succeeds but the Log publish fails, the client
receives 201 (the publish failure is only logged), the Store row exists, and a
subsequent retry with the same key returns that row with 200. -/
theorem publish_failure_row_persists
    (db : Gateway.GatewayDB) (k : String) (req : Gateway.CreatePaymentRequest)
    (id1 id2 : String) (pub2 : Bool)
    (hkv : db.kv ("idempotency:" ++ k) = none)
    (hstore : Gateway.findByKey db k = none) :
    (Gateway.handlePost db (some k) (some req) id1 false).1.status = 201 ∧
    Gateway.findByKey (Gateway.handlePost db (some k) (some req) id1 false).2 k =
      (Gateway.handlePost db (some k) (some req) id1 false).1.payment ∧
    (Gateway.handlePost (Gateway.handlePost db (some k) (some req) id1 false).2
        (some k) (some req) id2 pub2).1.status = 200 ∧
    (Gateway.handlePost (Gateway.handlePost db (some k) (some req) id1 false).2
        (some k) (some req) id2 pub2).1.payment =
      (Gateway.handlePost db (some k) (some req) id1 false).1.payment := by
  have hstore' : db.payments.find? (fun p => p.idempotency_key == k) = none := hstore
  refine ⟨?_, ?_, ?_, ?_⟩ <;>
    simp [Gateway.handlePost, hkv, hstore', setAt_same, Gateway.findByKey,
      find?_append_of_none _ _ _ hstore', List.find?]

/-- C9 amended witness: the publish-failure path evaluated at key `K1`. -/
theorem publish_failure_row_persists_witness :
    (Gateway.handlePost Gateway.gatewayInit (some "K1") (some Gateway.sampleReq)
        "uuid-1" false).1.status = 201 ∧
    Gateway.findByKey (Gateway.handlePost Gateway.gatewayInit (some "K1")
        (some Gateway.sampleReq) "uuid-1" false).2 "K1" =
      (Gateway.handlePost Gateway.gatewayInit (some "K1") (some Gateway.sampleReq)
        "uuid-1" false).1.payment ∧
    (Gateway.handlePost (Gateway.handlePost Gateway.gatewayInit (some "K1")
        (some Gateway.sampleReq) "uuid-1" false).2
        (some "K1") (some Gateway.sampleReq) "uuid-2" true).1.status = 200 ∧
    (Gateway.handlePost (Gateway.handlePost Gateway.gatewayInit (some "K1")
        (some Gateway.sampleReq) "uuid-1" false).2
        (some "K1") (some Gateway.sampleReq) "uuid-2" true).1.payment =
      (Gateway.handlePost Gateway.gatewayInit (some "K1") (some Gateway.sampleReq)
        "uuid-1" false).1.payment :=
  publish_failure_row_persists Gateway.gatewayInit "K1" Gateway.sampleReq
    "uuid-1" "uuid-2" true rfl rfl

/-- C8 counterexample: delivering a payment whose fraud check times out drives the
row to `FAILED`, but the `fraud_decision` column is left NULL (`none`), not
recorded as the string "timeout" — `processPayment` returns on the timeout branch
before the only `UPDATE ... SET fraud_decision` statement is ever reached. -/
theorem fraud_timeout_decision_counterexample :
    (Orch.processPayment Orch.orchInit "pay-1" Orch.FraudOutcome.timeout).rows "pay-1" =
      some { state := Orch.PaymentState.FAILED,
             previous_state := some Orch.PaymentState.AUTH_PENDING,
             fraud_decision := none } ∧
    ((Orch.processPayment Orch.orchInit "pay-1" Orch.FraudOutcome.timeout).rows
        "pay-1").map Orch.StateRow.fraud_decision ≠ some (some "timeout") := by
  constructor
  · rfl
  · decide

/-- C8 amended: on a fraud timeout or Bus error for a fresh payment, the
orchestrator advances `NEW → AUTH_PENDING → FAILED` and leaves the
`fraud_decision` column NULL; no "timeout" value is recorded. -/
theorem fraud_timeout_leaves_decision_null
    (db : Orch.OrchDB) (pid : String) (h : db.rows pid = none) :
    (Orch.processPayment db pid Orch.FraudOutcome.timeout).rows pid =
      some { state := Orch.PaymentState.FAILED,
             previous_state := some Orch.PaymentState.AUTH_PENDING,
             fraud_decision := none } := by
  simp [Orch.processPayment, Orch.insertIfAbsent, h, Orch.transitionState, setAt_same]

/-- C8 amended witness: the timeout path evaluated on payment `pay-1`. -/
theorem fraud_timeout_leaves_decision_null_witness :
    (Orch.processPayment Orch.orchInit "pay-1" Orch.FraudOutcome.timeout).rows "pay-1" =
      some { state := Orch.PaymentState.FAILED,
             previous_state := some Orch.PaymentState.AUTH_PENDING,
             fraud_decision := none } :=
  fraud_timeout_leaves_decision_null Orch.orchInit "pay-1" rfl

/-- C10: for a fresh payment the orchestrator runs the three transitions to
`SUCCEEDED` exactly when the fraud reply's decision string equals "approve"; any
other reply — "deny", "manual_review", or an unrecognized string — ends the
payment at `FAILED` via `AUTH_PENDING → FAILED`, with the raw decision stored. -/
theorem approve_gates_success
    (db : Orch.OrchDB) (pid : String) (d : String) (h : db.rows pid = none) :
    (Orch.processPayment db pid (Orch.FraudOutcome.reply d)).rows pid =
      some (if d == "approve"
        then { state := Orch.PaymentState.SUCCEEDED,
               previous_state := some Orch.PaymentState.CAPTURED,
               fraud_decision := some d }
        else { state := Orch.PaymentState.FAILED,
               previous_state := some Orch.PaymentState.AUTH_PENDING,
               fraud_decision := some d }) := by
  by_cases hd : d == "approve" <;>
    simp [Orch.processPayment, Orch.insertIfAbsent, h, Orch.transitionState,
      Orch.setFraudDecision, setAt_same, hd]

/-- C10 witness: an unrecognized decision string ends at `FAILED`. -/
theorem approve_gates_success_witness :
    (Orch.processPayment Orch.orchInit "pay-1"
        (Orch.FraudOutcome.reply "definitely-not-approve")).rows "pay-1" =
      some (if "definitely-not-approve" == "approve"
        then { state := Orch.PaymentState.SUCCEEDED,
               previous_state := some Orch.PaymentState.CAPTURED,
               fraud_decision := some "definitely-not-approve" }
        else { state := Orch.PaymentState.FAILED,
               previous_state := some Orch.PaymentState.AUTH_PENDING,
               fraud_decision := some "definitely-not-approve" }) :=
  approve_gates_success Orch.orchInit "pay-1" "definitely-not-approve" rfl

/-- Splitting a legality check over an append. -/
theorem chainLegal_append (s : Orch.PaymentState) (l1 l2 : List Orch.PaymentState) :
    Orch.chainLegal s (l1 ++ l2) =
      (Orch.chainLegal s l1 && Orch.chainLegal (Orch.lastState s l1) l2) := by
  induction l1 generalizing s with
  | nil => simp [Orch.chainLegal, Orch.lastState]
  | cons t rest ih =>
    simp [Orch.chainLegal, Orch.lastState, ih, Bool.and_assoc]

/-- Splitting the final state of a path over an append. -/
theorem lastState_append (s : Orch.PaymentState) (l1 l2 : List Orch.PaymentState) :
    Orch.lastState s (l1 ++ l2) = Orch.lastState (Orch.lastState s l1) l2 := by
  induction l1 generalizing s with
  | nil => simp [Orch.lastState]
  | cons t rest ih => simp [Orch.lastState, ih]

/-- Extending a legal history by a legal continuation keeps it legal and moves its
last state to the continuation's last state. -/
theorem legalHist_append (H L : List Orch.PaymentState) (s : Orch.PaymentState)
    (h1 : Orch.legalHist H = true) (h2 : Orch.histLast H = some s)
    (h3 : Orch.chainLegal s L = true) :
    Orch.legalHist (H ++ L) = true ∧
      Orch.histLast (H ++ L) = some (Orch.lastState s L) := by
  cases H with
  | nil => simp [Orch.legalHist] at h1
  | cons s0 rest =>
    simp only [Orch.legalHist, Bool.and_eq_true] at h1
    simp only [Orch.histLast, Option.some.injEq] at h2
    constructor
    · simp only [List.cons_append, Orch.legalHist, Bool.and_eq_true]
      refine ⟨h1.1, ?_⟩
      rw [chainLegal_append, h2]
      simp [h1.2, h3]
    · simp only [List.cons_append, Orch.histLast, Option.some.injEq]
      rw [lastState_append, h2]

/-- `transitionState` touches no payment other than its target. -/
theorem transitionState_frame (db : Orch.OrchDB) (pid : String)
    (f t : Orch.PaymentState) (pid2 : String) (h : pid2 ≠ pid) :
    ((Orch.transitionState db pid f t).1).rows pid2 = db.rows pid2 ∧
      ((Orch.transitionState db pid f t).1).hist pid2 = db.hist pid2 := by
  unfold Orch.transitionState
  cases hr : db.rows pid with
  | none => exact ⟨rfl, rfl⟩
  | some row =>
    by_cases hs : row.state = f <;> simp [hs, setAt_ne _ _ _ _ h]

/-- `insertIfAbsent` touches no payment other than its target. -/
theorem insertIfAbsent_frame (db : Orch.OrchDB) (pid : String)
    (pid2 : String) (h : pid2 ≠ pid) :
    (Orch.insertIfAbsent db pid).rows pid2 = db.rows pid2 ∧
      (Orch.insertIfAbsent db pid).hist pid2 = db.hist pid2 := by
  unfold Orch.insertIfAbsent
  cases hr : db.rows pid with
  | some row => exact ⟨rfl, rfl⟩
  | none => simp [setAt_ne _ _ _ _ h]

/-- `setFraudDecision` touches no payment other than its target. -/
theorem setFraudDecision_frame (db : Orch.OrchDB) (pid : String) (d : String)
    (pid2 : String) (h : pid2 ≠ pid) :
    (Orch.setFraudDecision db pid d).rows pid2 = db.rows pid2 ∧
      (Orch.setFraudDecision db pid d).hist pid2 = db.hist pid2 := by
  unfold Orch.setFraudDecision
  cases hr : db.rows pid with
  | none => exact ⟨rfl, rfl⟩
  | some row => simp [setAt_ne _ _ _ _ h]

/-- `processPayment` touches no payment other than the delivered one. -/
theorem processPayment_frame (db : Orch.OrchDB) (pid : String)
    (o : Orch.FraudOutcome) (pid2 : String) (h : pid2 ≠ pid) :
    (Orch.processPayment db pid o).rows pid2 = db.rows pid2 ∧
      (Orch.processPayment db pid o).hist pid2 = db.hist pid2 := by
  unfold Orch.processPayment
  dsimp only
  have h1 := insertIfAbsent_frame db pid pid2 h
  cases htr : Orch.transitionState (Orch.insertIfAbsent db pid) pid .NEW .AUTH_PENDING with
  | mk db2 ok =>
    have h2 := transitionState_frame (Orch.insertIfAbsent db pid) pid .NEW .AUTH_PENDING pid2 h
    rw [htr] at h2
    cases ok with
    | false => exact ⟨h2.1.trans h1.1, h2.2.trans h1.2⟩
    | true =>
      cases o with
      | timeout =>
        have h3 := transitionState_frame db2 pid .AUTH_PENDING .FAILED pid2 h
        exact ⟨h3.1.trans (h2.1.trans h1.1), h3.2.trans (h2.2.trans h1.2)⟩
      | reply d =>
        have h3 := setFraudDecision_frame db2 pid d pid2 h
        dsimp only
        split
        · have h4 := transitionState_frame (Orch.setFraudDecision db2 pid d) pid
            .AUTH_PENDING .AUTHORIZED pid2 h
          have h5 := transitionState_frame
            (Orch.transitionState (Orch.setFraudDecision db2 pid d) pid
              .AUTH_PENDING .AUTHORIZED).1
            pid .AUTHORIZED .CAPTURED pid2 h
          have h6 := transitionState_frame
            (Orch.transitionState
              (Orch.transitionState (Orch.setFraudDecision db2 pid d) pid
                .AUTH_PENDING .AUTHORIZED).1
              pid .AUTHORIZED .CAPTURED).1
            pid .CAPTURED .SUCCEEDED pid2 h
          exact ⟨h6.1.trans (h5.1.trans (h4.1.trans (h3.1.trans (h2.1.trans h1.1)))),
                 h6.2.trans (h5.2.trans (h4.2.trans (h3.2.trans (h2.2.trans h1.2))))⟩
        · have h4 := transitionState_frame (Orch.setFraudDecision db2 pid d) pid
            .AUTH_PENDING .FAILED pid2 h
          exact ⟨h4.1.trans (h3.1.trans (h2.1.trans h1.1)),
                 h4.2.trans (h3.2.trans (h2.2.trans h1.2))⟩

/-- A payment whose row is not in `NEW` is left completely unchanged by a
redelivery: the initial insert is a no-op and the first CAS fails, making
`processPayment` return before anything is written. -/
theorem processPayment_stuck (db : Orch.OrchDB) (pid : String) (o : Orch.FraudOutcome)
    (row : Orch.StateRow) (hrow : db.rows pid = some row)
    (hne : row.state ≠ Orch.PaymentState.NEW) :
    Orch.processPayment db pid o = db := by
  unfold Orch.processPayment Orch.insertIfAbsent Orch.transitionState
  simp [hrow, hne]

/-- Inserting a fresh row writes `NEW` with empty previous state and NULL fraud
decision, and starts the recorded history. -/
theorem insertIfAbsent_rows_self (db : Orch.OrchDB) (pid : String)
    (h : db.rows pid = none) :
    (Orch.insertIfAbsent db pid).rows pid =
      some { state := Orch.PaymentState.NEW, previous_state := none,
             fraud_decision := none } ∧
    (Orch.insertIfAbsent db pid).hist pid = [Orch.PaymentState.NEW] := by
  simp [Orch.insertIfAbsent, h, setAt_same]

/-- The `ON CONFLICT DO NOTHING` insert is a no-op on an existing row. -/
theorem insertIfAbsent_of_some (db : Orch.OrchDB) (pid : String) (row : Orch.StateRow)
    (h : db.rows pid = some row) : Orch.insertIfAbsent db pid = db := by
  unfold Orch.insertIfAbsent
  rw [h]

/-- Processing a payment with no row yet is the same as processing it right after
the initial insert. -/
theorem processPayment_insert_absorb (db : Orch.OrchDB) (pid : String)
    (o : Orch.FraudOutcome) (h : db.rows pid = none) :
    Orch.processPayment db pid o =
      Orch.processPayment (Orch.insertIfAbsent db pid) pid o := by
  have e1 : Orch.insertIfAbsent (Orch.insertIfAbsent db pid) pid =
      Orch.insertIfAbsent db pid :=
    insertIfAbsent_of_some _ _ _ (insertIfAbsent_rows_self db pid h).1
  unfold Orch.processPayment
  rw [e1]

/-- Effect of a timeout delivery on a payment whose row is in `NEW`. -/
theorem processPayment_new_timeout (db : Orch.OrchDB) (pid : String)
    (row : Orch.StateRow) (hrow : db.rows pid = some row)
    (hnew : row.state = Orch.PaymentState.NEW) :
    (Orch.processPayment db pid Orch.FraudOutcome.timeout).rows pid =
      some { state := Orch.PaymentState.FAILED,
             previous_state := some Orch.PaymentState.AUTH_PENDING,
             fraud_decision := row.fraud_decision } ∧
    (Orch.processPayment db pid Orch.FraudOutcome.timeout).hist pid =
      db.hist pid ++ [Orch.PaymentState.AUTH_PENDING, Orch.PaymentState.FAILED] := by
  simp [Orch.processPayment, Orch.insertIfAbsent, Orch.transitionState, hrow, hnew,
    setAt_same]

/-- Effect of an "approve" reply on a payment whose row is in `NEW`: three CAS
transitions to `SUCCEEDED`, with the decision stored. -/
theorem processPayment_new_approve (db : Orch.OrchDB) (pid : String)
    (row : Orch.StateRow) (d : String) (hrow : db.rows pid = some row)
    (hnew : row.state = Orch.PaymentState.NEW) (hd : (d == "approve") = true) :
    (Orch.processPayment db pid (Orch.FraudOutcome.reply d)).rows pid =
      some { state := Orch.PaymentState.SUCCEEDED,
             previous_state := some Orch.PaymentState.CAPTURED,
             fraud_decision := some d } ∧
    (Orch.processPayment db pid (Orch.FraudOutcome.reply d)).hist pid =
      db.hist pid ++ [Orch.PaymentState.AUTH_PENDING, Orch.PaymentState.AUTHORIZED,
        Orch.PaymentState.CAPTURED, Orch.PaymentState.SUCCEEDED] := by
  simp [Orch.processPayment, Orch.insertIfAbsent, Orch.transitionState,
    Orch.setFraudDecision, hrow, hnew, hd, setAt_same]

/-- Effect of any non-"approve" reply on a payment whose row is in `NEW`: a single
CAS to `FAILED`, with the raw decision stored. -/
theorem processPayment_new_other (db : Orch.OrchDB) (pid : String)
    (row : Orch.StateRow) (d : String) (hrow : db.rows pid = some row)
    (hnew : row.state = Orch.PaymentState.NEW) (hd : (d == "approve") = false) :
    (Orch.processPayment db pid (Orch.FraudOutcome.reply d)).rows pid =
      some { state := Orch.PaymentState.FAILED,
             previous_state := some Orch.PaymentState.AUTH_PENDING,
             fraud_decision := some d } ∧
    (Orch.processPayment db pid (Orch.FraudOutcome.reply d)).hist pid =
      db.hist pid ++ [Orch.PaymentState.AUTH_PENDING, Orch.PaymentState.FAILED] := by
  simp [Orch.processPayment, Orch.insertIfAbsent, Orch.transitionState,
    Orch.setFraudDecision, hrow, hnew, hd, setAt_same]

/-- One delivery of `payment.created` preserves the orchestrator invariant: every
row still carries a legal recorded history ending in its current state, and
`SUCCEEDED` rows carry the "approve" decision. -/
theorem Inv_processPayment (db : Orch.OrchDB) (pid : String) (o : Orch.FraudOutcome)
    (hInv : Orch.Inv db) : Orch.Inv (Orch.processPayment db pid o) := by
  intro pid2
  by_cases hp : pid2 = pid
  · subst hp
    cases hrow : db.rows pid2 with
    | none =>
      rw [processPayment_insert_absorb db pid2 o hrow]
      obtain ⟨hir, hih⟩ := insertIfAbsent_rows_self db pid2 hrow
      cases o with
      | timeout =>
        obtain ⟨hr2, hh2⟩ := processPayment_new_timeout _ pid2 _ hir rfl
        rw [hr2, hh2, hih]
        simp [Orch.RowInv, Orch.legalHist, Orch.chainLegal, Orch.legalEdge,
          Orch.histLast, Orch.lastState, Orch.rowOk]
      | reply d =>
        by_cases hd : (d == "approve") = true
        · obtain ⟨hr2, hh2⟩ := processPayment_new_approve _ pid2 _ d hir rfl hd
          rw [hr2, hh2, hih]
          have hde : d = "approve" := by simpa using hd
          subst hde
          simp [Orch.RowInv, Orch.legalHist, Orch.chainLegal, Orch.legalEdge,
            Orch.histLast, Orch.lastState, Orch.rowOk]
        · obtain ⟨hr2, hh2⟩ := processPayment_new_other _ pid2 _ d hir rfl
            (by simpa using hd)
          rw [hr2, hh2, hih]
          simp [Orch.RowInv, Orch.legalHist, Orch.chainLegal, Orch.legalEdge,
            Orch.histLast, Orch.lastState, Orch.rowOk]
    | some row =>
      by_cases hnew : row.state = Orch.PaymentState.NEW
      · have hri := hInv pid2
        rw [hrow] at hri
        obtain ⟨hl, hlast, hok⟩ := hri
        rw [hnew] at hlast
        cases o with
        | timeout =>
          obtain ⟨hr2, hh2⟩ := processPayment_new_timeout db pid2 row hrow hnew
          rw [hr2, hh2]
          have hleg := legalHist_append (db.hist pid2)
            [Orch.PaymentState.AUTH_PENDING, Orch.PaymentState.FAILED]
            Orch.PaymentState.NEW hl hlast rfl
          exact ⟨hleg.1, hleg.2, rfl⟩
        | reply d =>
          by_cases hd : (d == "approve") = true
          · obtain ⟨hr2, hh2⟩ := processPayment_new_approve db pid2 row d hrow hnew hd
            rw [hr2, hh2]
            have hleg := legalHist_append (db.hist pid2)
              [Orch.PaymentState.AUTH_PENDING, Orch.PaymentState.AUTHORIZED,
                Orch.PaymentState.CAPTURED, Orch.PaymentState.SUCCEEDED]
              Orch.PaymentState.NEW hl hlast rfl
            have hde : d = "approve" := by simpa using hd
            subst hde
            exact ⟨hleg.1, hleg.2, rfl⟩
          · obtain ⟨hr2, hh2⟩ := processPayment_new_other db pid2 row d hrow hnew
              (by simpa using hd)
            rw [hr2, hh2]
            have hleg := legalHist_append (db.hist pid2)
              [Orch.PaymentState.AUTH_PENDING, Orch.PaymentState.FAILED]
              Orch.PaymentState.NEW hl hlast rfl
            exact ⟨hleg.1, hleg.2, rfl⟩
      · rw [processPayment_stuck db pid2 o row hrow hnew]
        exact hInv pid2
  · obtain ⟨hr, hh⟩ := processPayment_frame db pid o pid2 hp
    rw [hr, hh]
    exact hInv pid2

/-- The invariant holds along any serial run of the consumer. -/
theorem Inv_runEvents (evs : List (String × Orch.FraudOutcome)) (db : Orch.OrchDB)
    (h : Orch.Inv db) : Orch.Inv (Orch.runEvents db evs) := by
  induction evs generalizing db with
  | nil => exact h
  | cons e rest ih => exact ih _ (Inv_processPayment db e.1 e.2 h)

/-- The invariant holds at bootstrap. -/
theorem Inv_orchInit : Orch.Inv Orch.orchInit := by
  intro pid
  exact rfl

/-- A terminal row survives any further delivery unchanged. -/
theorem processPayment_preserves_terminal (db : Orch.OrchDB) (pid : String)
    (o : Orch.FraudOutcome) (pid2 : String) (row2 : Orch.StateRow)
    (h2 : db.rows pid2 = some row2) (h3 : Orch.isTerminal row2.state = true) :
    (Orch.processPayment db pid o).rows pid2 = some row2 := by
  by_cases hp : pid2 = pid
  · subst hp
    have hne : row2.state ≠ Orch.PaymentState.NEW := by
      intro he
      rw [he] at h3
      simp [Orch.isTerminal] at h3
    rw [processPayment_stuck db pid2 o row2 h2 hne]
    exact h2
  · rw [(processPayment_frame db pid o pid2 hp).1]
    exact h2

/-- A terminal row survives any further serial run unchanged. -/
theorem runEvents_preserves_terminal (evs : List (String × Orch.FraudOutcome))
    (db : Orch.OrchDB) (pid2 : String) (row2 : Orch.StateRow)
    (h2 : db.rows pid2 = some row2) (h3 : Orch.isTerminal row2.state = true) :
    (Orch.runEvents db evs).rows pid2 = some row2 := by
  induction evs generalizing db with
  | nil => exact h2
  | cons e rest ih =>
    exact ih (Orch.processPayment db e.1 e.2)
      (processPayment_preserves_terminal db e.1 e.2 pid2 row2 h2 h3)

/-- C3: state-machine legality.  `transitionState` is by definition a
compare-and-swap that sets `state = to` only where the stored state equals `from`,
and `processPayment` only ever invokes it on edges of the legal graph
`NEW → AUTH_PENDING → AUTHORIZED → CAPTURED → SUCCEEDED` and
`AUTH_PENDING → FAILED`.  Consequently, for any serial run of the consumer from
bootstrap: the recorded state sequence of every payment is an initial segment of a
legal path ending in the row's current state; a row in `SUCCEEDED` carries the
fraud decision "approve" (`rowOk`); and a row that has reached a terminal state
(`SUCCEEDED`, `FAILED`, `CANCELED`) is never mutated by any further deliveries. -/
theorem orchestrator_transitions_legal
    (evs : List (String × Orch.FraudOutcome)) (pid : String) (row : Orch.StateRow)
    (h1 : (Orch.runEvents Orch.orchInit evs).rows pid = some row)
    (db2 : Orch.OrchDB) (evs2 : List (String × Orch.FraudOutcome))
    (pid2 : String) (row2 : Orch.StateRow)
    (h2 : db2.rows pid2 = some row2) (h3 : Orch.isTerminal row2.state = true) :
    Orch.legalHist ((Orch.runEvents Orch.orchInit evs).hist pid) = true ∧
    Orch.histLast ((Orch.runEvents Orch.orchInit evs).hist pid) = some row.state ∧
    Orch.rowOk row = true ∧
    (Orch.runEvents db2 evs2).rows pid2 = some row2 := by
  have hinv := Inv_runEvents evs Orch.orchInit Inv_orchInit pid
  rw [h1] at hinv
  obtain ⟨hl, hlast, hok⟩ := hinv
  exact ⟨hl, hlast, hok, runEvents_preserves_terminal evs2 db2 pid2 row2 h2 h3⟩

/-- C3 witness: an approved payment's run from bootstrap, and a `FAILED` (timeout)
payment surviving a redelivery unchanged. -/
theorem orchestrator_transitions_legal_witness :
    Orch.legalHist ((Orch.runEvents Orch.orchInit
      [("pay-1", Orch.FraudOutcome.reply "approve")]).hist "pay-1") = true ∧
    Orch.histLast ((Orch.runEvents Orch.orchInit
      [("pay-1", Orch.FraudOutcome.reply "approve")]).hist "pay-1") =
      some (Orch.StateRow.mk Orch.PaymentState.SUCCEEDED
        (some Orch.PaymentState.CAPTURED) (some "approve")).state ∧
    Orch.rowOk (Orch.StateRow.mk Orch.PaymentState.SUCCEEDED
      (some Orch.PaymentState.CAPTURED) (some "approve")) = true ∧
    (Orch.runEvents (Orch.processPayment Orch.orchInit "pay-2" Orch.FraudOutcome.timeout)
      [("pay-2", Orch.FraudOutcome.reply "approve")]).rows "pay-2" =
      some (Orch.StateRow.mk Orch.PaymentState.FAILED
        (some Orch.PaymentState.AUTH_PENDING) none) :=
  orchestrator_transitions_legal
    [("pay-1", Orch.FraudOutcome.reply "approve")] "pay-1"
    (Orch.StateRow.mk Orch.PaymentState.SUCCEEDED
      (some Orch.PaymentState.CAPTURED) (some "approve"))
    (by decide)
    (Orch.processPayment Orch.orchInit "pay-2" Orch.FraudOutcome.timeout)
    [("pay-2", Orch.FraudOutcome.reply "approve")] "pay-2"
    (Orch.StateRow.mk Orch.PaymentState.FAILED
      (some Orch.PaymentState.AUTH_PENDING) none)
    (by decide) rfl
